import Mathlib

/-!
# Verification of the demo-app telemetry / fault-injection core (`app/main.go`)

Shallow embedding of the Go source `src/app/main.go` of the LGTMP demo
repository.  Pure computations (the regex workload, the retention-buffer
update, the log-body formatting) are translated to Lean functions; the
side-effecting handlers and the traffic-generator loop are translated to
functions producing explicit event traces, with the random draws passed in
as explicit arguments.
-/

/-! ## Constants from `main.go` -/

def serviceName : String := "demo-app"
def jobName : String := "demo-app"
def routeFast : String := "/hello"
def routeSlow : String := "/slow"
def routeAlloc : String := "/alloc"

/-! ## Regular-expression engine (embedding of Go `regexp` / RE2 matching)

Go's `regexp.MatchString` on a pattern anchored with `^…$` decides whether
the whole input matches.  We embed this with a standard Antimirov
partial-derivative matcher over Unicode code points (`Nat`): the matcher
state is the set of partial derivatives reached so far, deduplicated at
every step.  Character classes are first-order data so that regex
equality (hence deduplication) is decidable; Go's `\w` is ASCII
`[0-9A-Za-z_]`. -/

/-- Go (RE2) `\w`: ASCII `[0-9A-Za-z_]`. -/
def wordChar (c : Nat) : Bool :=
  (48 ≤ c && c ≤ 57) || (65 ≤ c && c ≤ 90) || (97 ≤ c && c ≤ 122) || c == 95

/-- The class `[A-Za-z0-9]`. -/
def alnumChar (c : Nat) : Bool :=
  (48 ≤ c && c ≤ 57) || (65 ≤ c && c ≤ 90) || (97 ≤ c && c ≤ 122)

/-- The class `[-.]` (hyphen 45, dot 46). -/
def dashDotChar (c : Nat) : Bool := c == 45 || c == 46

/-- The character classes occurring in the email pattern. -/
inductive CharClass where
  | word : CharClass
  | alnum : CharClass
  | dashDot : CharClass
  | lit : Nat → CharClass
deriving DecidableEq

/-- Whether a code point belongs to a character class. -/
def CharClass.test : CharClass → Nat → Bool
  | .word, c => wordChar c
  | .alnum, c => alnumChar c
  | .dashDot, c => dashDotChar c
  | .lit x, c => c == x

inductive Regex where
  | eps : Regex
  | cls : CharClass → Regex
  | alt : Regex → Regex → Regex
  | cat : Regex → Regex → Regex
  | star : Regex → Regex
deriving DecidableEq

def Regex.nullable : Regex → Bool
  | .eps => true
  | .cls _ => false
  | .alt r s => r.nullable || s.nullable
  | .cat r s => r.nullable && s.nullable
  | .star _ => true

/-- Concatenation that drops the unit `eps`. -/
def Regex.mkCat : Regex → Regex → Regex
  | .eps, s => s
  | r, .eps => r
  | r, s => .cat r s

/-- Antimirov partial derivatives of a regex by one code point: the list of
regexes whose union is the left quotient of the regex's language by that
code point. -/
def Regex.pderiv : Regex → Nat → List Regex
  | .eps, _ => []
  | .cls k, c => if k.test c then [.eps] else []
  | .alt r s, c => r.pderiv c ++ s.pderiv c
  | .cat r s, c =>
      (r.pderiv c).map (fun d => Regex.mkCat d s)
        ++ (if r.nullable then s.pderiv c else [])
  | .star r, c => (r.pderiv c).map (fun d => Regex.mkCat d (.star r))

/-- One matcher step: all partial derivatives of the current state set,
deduplicated. -/
def regexStep (st : List Regex) (c : Nat) : List Regex :=
  (st.flatMap (fun r => r.pderiv c)).dedup

/-- The input matches iff some regex reached after consuming the whole
input accepts the empty string. -/
def Regex.matchList (r : Regex) (cs : List Nat) : Bool :=
  (cs.foldl regexStep [r]).any Regex.nullable

/-- Whole-string matching: the Go pattern is anchored `^…$`, so
`MatchString` succeeds iff the entire string matches the inner regex. -/
def Regex.matchString (r : Regex) (s : String) : Bool :=
  r.matchList (s.data.map Char.toNat)

/-! ### The email pattern of `main.go`

`^(\w+([-.][A-Za-z0-9]+)*){3,18}@\w+([-.][A-Za-z0-9]+)*\.\w+([-.][A-Za-z0-9]+)*$` -/

/-- `r+` -/
def rplus (r : Regex) : Regex := .cat r (.star r)

/-- `r?` -/
def ropt (r : Regex) : Regex := .alt .eps r

/-- `r` concatenated `n` times. -/
def catN : Nat → Regex → Regex
  | 0, _ => .eps
  | n + 1, r => .cat r (catN n r)

/-- `r{lo,hi}` (with `lo ≤ hi`): `lo` mandatory copies followed by
`hi - lo` optional copies. -/
def repRange (r : Regex) (lo hi : Nat) : Regex :=
  .cat (catN lo r) (catN (hi - lo) (ropt r))

/-- A single literal character. -/
def litChar (c : Nat) : Regex := .cls (.lit c)

/-- `\w+` -/
def wordRun : Regex := rplus (.cls .word)

/-- `([-.][A-Za-z0-9]+)*` -/
def dashTail : Regex := .star (.cat (.cls .dashDot) (rplus (.cls .alnum)))

/-- The group `\w+([-.][A-Za-z0-9]+)*`. -/
def localGroup : Regex := .cat wordRun dashTail

/-- The full (anchored) email pattern compiled in `main.go`. -/
def emailRegexp : Regex :=
  .cat (repRange localGroup 3 18)
    (.cat (litChar 64)
      (.cat wordRun (.cat dashTail (.cat (litChar 46) (.cat wordRun dashTail)))))

/-- The adversarial sample string `slowEmailSample` from `main.go`. -/
def slowEmailSample : String :=
  "rosamariachoccelahuaaranda70@gmail.comnnbbb.bbNG.bbb.n¿.?n"

/-- Result of one `emailRegexp.MatchString(slowEmailSample)` call. -/
def emailMatchResult : Bool := emailRegexp.matchString slowEmailSample

/-- Number of loop iterations inside `checkEmail` (`for i := 0; i < 5000`). -/
def checkEmailIters : Nat := 5000

/-- The loop body of `checkEmail`:
`if emailRegexp.MatchString(slowEmailSample) { matched = true }`,
iterated over the remaining iteration count. -/
def checkEmailLoop : Nat → Bool → Bool
  | 0, matched => matched
  | n + 1, matched => checkEmailLoop n (if emailMatchResult then true else matched)

/-- `checkEmail` from `main.go`: starts with `matched := false`, runs the
match loop 5000 times, returns `matched`. -/
def checkEmail : Bool := checkEmailLoop checkEmailIters false

/-! ## Retention buffer (`allocateMemoryBurst`, `allocHandler`)

The Go code keeps a global slice `allocHolder [][]byte`.  Each call
appends one freshly allocated batch of `chunkSize*chunkCount` bytes; when
`len(allocHolder) >= maxRetained` the oldest batch is dropped first
(`allocHolder = allocHolder[1:]`).  We model the buffer as a list of
opaque block identifiers (`Nat`), each standing for one batch; block
contents are irrelevant to the buffer dynamics. -/

def chunkSize : Nat := 256 * 1024
def chunkCount : Nat := 200
def maxRetained : Nat := 20

/-- One call of `allocateMemoryBurst`, acting on the buffer:
drop the oldest batch when the retention cap is reached, then append the
new batch. -/
def allocateMemoryBurst (holder : List Nat) (batch : Nat) : List Nat :=
  (if maxRetained ≤ holder.length then holder.drop 1 else holder) ++ [batch]

/-- A minimal HTTP request/response model for the three handlers. -/
structure HttpRequest where
  query : List (String × String)
deriving DecidableEq

structure HttpResponse where
  status : Nat
  body : String
deriving DecidableEq

/-- `allocHandler`: mutates the retention buffer via `allocateMemoryBurst`
and responds `200 "Alloc endpoint finished"`. -/
def allocHandler (holder : List Nat) (batch : Nat) : List Nat × HttpResponse :=
  (allocateMemoryBurst holder batch,
   { status := 200, body := "Alloc endpoint finished" })

/-- The buffer after `n` successive calls to the memory-retention handler
starting from the empty buffer (the `k`-th call appends block `k`). -/
def allocSeq : Nat → List Nat
  | 0 => []
  | n + 1 => (allocHandler (allocSeq n) n).1

/-! ## Event traces

The handlers and the traffic generator perform effects (spans, HTTP
writes, metric and log emission).  We embed each as the list of effects
it performs, in program order. -/

inductive Severity where
  | info : Severity
  | error : Severity
deriving DecidableEq

inductive AttrVal where
  | str : String → AttrVal
  | int : Int → AttrVal
deriving DecidableEq

/-- An OTel log record as built in `startTrafficGenerator`. -/
structure LogRecord where
  severity : Severity
  severityText : String
  body : String
  attrs : List (String × AttrVal)
deriving DecidableEq

inductive Ev where
  | spanStart : String → Ev
  | setAttr : String → String → Ev
  | matchCall : Ev
  | httpGet : String → Ev
  | counterAdd : String → String → String → Ev
  | histRecord : String → Ev
  | emitLog : LogRecord → Ev
  | recordError : String → Ev
  | spanEnd : String → Ev
  | write : String → Ev
  | sleep : Nat → Ev
deriving DecidableEq

/-- The effect trace of one `checkEmail()` call: 5000 invocations of
`emailRegexp.MatchString`. -/
def checkEmailEvents : List Ev := List.replicate checkEmailIters Ev.matchCall

/-- Loop count of `slowHandler` (`for i := 0; i < 50`). -/
def slowLoopCount : Nat := 50

/-- The effect trace of `slowHandler`: open the child span
`slow_business_logic`, run `checkEmail` 50 times, write the response
body, and (by `defer`) close the span on return. -/
def slowHandlerEvents : List Ev :=
  Ev.spanStart "slow_business_logic"
    :: (List.replicate slowLoopCount checkEmailEvents).flatten
    ++ [Ev.write "Slow endpoint finished", Ev.spanEnd "slow_business_logic"]

/-- `slowHandler` ignores the request entirely: it always produces the
same response and the same effect trace. -/
def slowHandler (_r : HttpRequest) : HttpResponse × List Ev :=
  ({ status := 200, body := "Slow endpoint finished" }, slowHandlerEvents)

/-- `helloHandler`, with the two random draws passed explicitly:
`sleepDraw` feeds `rand.Intn(50)` and `failDraw` models the
`rand.Float32()` sample in `[0,1)`.  Returns the sleep duration (ms) and
the response.  On the injected failure it writes header 500 and returns
at once, so the body stays empty. -/
def helloHandler (sleepDraw : Nat) (failDraw : ℚ) : Nat × HttpResponse :=
  let sleepMs := sleepDraw % 50
  if failDraw < 5 / 100 then
    (sleepMs, { status := 500, body := "" })
  else
    (sleepMs, { status := 200, body := "Hello World" })

/-! ## Traffic generator (`startTrafficGenerator`) -/

/-- The log body built by the generator on success:
`fmt.Sprintf("[OK] route=%s method=GET status=200 duration_ms=%d trace_id=%s span_id=%s", …)`. -/
def okLogBody (route : String) (durationMs : Int) (traceID spanID : String) : String :=
  "[OK] route=" ++ route ++ " method=GET status=200 duration_ms="
    ++ toString durationMs ++ " trace_id=" ++ traceID ++ " span_id=" ++ spanID

/-- The log body built by the generator on transport failure:
`fmt.Sprintf("[ERROR] route=%s method=GET err=%v trace_id=%s span_id=%s", …)`. -/
def errLogBody (route errText traceID spanID : String) : String :=
  "[ERROR] route=" ++ route ++ " method=GET err=" ++ errText
    ++ " trace_id=" ++ traceID ++ " span_id=" ++ spanID

/-- The success-format of §6 of the spec, written from the spec's words:
`[OK] route=<route> method=GET status=200 duration_ms=<int> trace_id=<hex> span_id=<hex>`. -/
def specOkLogBody (route : String) (durationMs : Int) (traceID spanID : String) : String :=
  "[OK] route=" ++ route ++ " method=GET status=200 duration_ms="
    ++ toString durationMs ++ " trace_id=" ++ traceID ++ " span_id=" ++ spanID

/-- The error-format of §6 of the spec, written from the spec's words:
`[ERROR] route=<route> method=GET err=<text> trace_id=<hex> span_id=<hex>`. -/
def specErrLogBody (route errText traceID spanID : String) : String :=
  "[ERROR] route=" ++ route ++ " method=GET err=" ++ errText
    ++ " trace_id=" ++ traceID ++ " span_id=" ++ spanID

/-- Structured attributes attached to the success log record. -/
def okAttrs (durationMs : Int) (traceID spanID : String) : List (String × AttrVal) :=
  [("route", .str routeSlow), ("duration_ms", .int durationMs),
   ("method", .str "GET"), ("trace_id", .str traceID), ("span_id", .str spanID)]

/-- Structured attributes attached to the error log record. -/
def errAttrs (errText traceID spanID : String) : List (String × AttrVal) :=
  [("route", .str routeSlow), ("error", .str errText),
   ("trace_id", .str traceID), ("span_id", .str spanID)]

/-- Outcome of the generator's `client.Get` call on `/slow`. -/
inductive CallOutcome where
  | ok : Int → CallOutcome
  | fail : String → CallOutcome
deriving DecidableEq

/-- One iteration of the `for` loop in `startTrafficGenerator`, as its
effect trace.  `traceID`/`spanID` come from the fresh top-level span,
`outcome` is the transport result (`ok durationMs` or `fail errText`),
and `sleepDraw` feeds `rand.Intn(500)`. -/
def generatorIteration (traceID spanID : String) (outcome : CallOutcome)
    (sleepDraw : Nat) : List Ev :=
  [Ev.spanStart "traffic_generator_request",
   Ev.setAttr "job" jobName, Ev.setAttr "service_name" serviceName]
    ++ checkEmailEvents
    ++ [Ev.httpGet ("http://localhost:8080" ++ routeSlow)]
    ++ (match outcome with
        | .fail e =>
            [Ev.emitLog { severity := .error, severityText := "ERROR",
                          body := errLogBody routeSlow e traceID spanID,
                          attrs := errAttrs e traceID spanID },
             Ev.recordError e]
        | .ok d =>
            [Ev.counterAdd "GET" "200" routeSlow,
             Ev.histRecord routeSlow,
             Ev.emitLog { severity := .info, severityText := "INFO",
                          body := okLogBody routeSlow d traceID spanID,
                          attrs := okAttrs d traceID spanID }])
    ++ [Ev.spanEnd "traffic_generator_request", Ev.sleep (100 + sleepDraw % 500)]

/-- The data of one generator iteration: span identifiers, transport
outcome, sleep draw. -/
structure IterInput where
  traceID : String
  spanID : String
  outcome : CallOutcome
  sleepDraw : Nat
deriving DecidableEq

/-- The trace of finitely many iterations of the generator loop.  The Go
loop is an unconditional `for` with no `break`/`return`, so the trace of
the first `n` iterations is the concatenation of the per-iteration
traces, whatever each outcome was. -/
def generatorRun (inputs : List IterInput) : List Ev :=
  (inputs.map (fun i => generatorIteration i.traceID i.spanID i.outcome i.sleepDraw)).flatten

/-! ## Observation helpers on event traces -/

/-- The log record carried by an event, if any. -/
def logRecordOf : Ev → Option LogRecord
  | .emitLog r => some r
  | _ => none

/-- The log records emitted in a trace, in order. -/
def logRecordsOf (evs : List Ev) : List LogRecord :=
  evs.filterMap logRecordOf

/-- The bodies of the log records emitted in a trace. -/
def logBodiesOf (evs : List Ev) : List String :=
  (logRecordsOf evs).map LogRecord.body

/-- Whether an event is a request-counter increment. -/
def isCounterAdd : Ev → Bool
  | .counterAdd _ _ _ => true
  | _ => false

/-- Whether an event is a duration-histogram observation. -/
def isHistRecord : Ev → Bool
  | .histRecord _ => true
  | _ => false

/-- Number of counter increments in a trace. -/
def countCounterAdds (evs : List Ev) : Nat := evs.countP isCounterAdd

/-- Number of histogram observations in a trace. -/
def countHistRecords (evs : List Ev) : Nat := evs.countP isHistRecord

/-- Whether an event is a `checkEmail` regex invocation. -/
def isMatchCall : Ev → Bool
  | .matchCall => true
  | _ => false

/-- Whether an event writes an HTTP response body. -/
def isWriteEv : Ev → Bool
  | .write _ => true
  | _ => false

/-- Whether an event opens a span. -/
def isSpanStartEv : Ev → Bool
  | .spanStart _ => true
  | _ => false

/-- Whether an event closes a span. -/
def isSpanEndEv : Ev → Bool
  | .spanEnd _ => true
  | _ => false

/-- Whether an event records an error on the active span. -/
def isRecordError : Ev → Bool
  | .recordError _ => true
  | _ => false

/-! ## General helper lemmas -/

theorem countP_replicate_eq {α : Type} (p : α → Bool) (n : Nat) (a : α) :
    (List.replicate n a).countP p = if p a then n else 0 := by
  induction n with
  | zero => simp
  | succ n ih =>
      rw [List.replicate_succ, List.countP_cons, ih]
      by_cases hpa : p a = true <;> simp [hpa]

theorem countP_flatten_replicate {α : Type} (p : α → Bool) (n : Nat) (l : List α) :
    ((List.replicate n l).flatten).countP p = n * l.countP p := by
  induction n with
  | zero => simp
  | succ n ih =>
      rw [List.replicate_succ, List.flatten_cons, List.countP_append, ih,
        Nat.succ_mul]
      omega

theorem length_flatten_replicate {α : Type} (n : Nat) (l : List α) :
    ((List.replicate n l).flatten).length = n * l.length := by
  induction n with
  | zero => simp
  | succ n ih =>
      rw [List.replicate_succ, List.flatten_cons, List.length_append, ih,
        Nat.succ_mul]
      omega

theorem filterMap_replicate_none {α β : Type} (f : α → Option β) (n : Nat) (a : α)
    (h : f a = none) : (List.replicate n a).filterMap f = [] := by
  induction n with
  | zero => rfl
  | succ n ih => rw [List.replicate_succ, List.filterMap_cons, h, ih]

theorem findIdx_append_all_false {α : Type} (p : α → Bool) (l1 l2 : List α)
    (h : ∀ x ∈ l1, p x = false) :
    (l1 ++ l2).findIdx p = l1.length + l2.findIdx p := by
  induction l1 with
  | nil => simp
  | cons a l ih =>
      have ha : p a = false := h a (by simp)
      rw [List.cons_append, List.findIdx_cons, ha]
      have := ih (fun x hx => h x (by simp [hx]))
      simp only [cond_false, this, List.length_cons]
      omega

theorem mem_flatten_replicate_eq {α : Type} (n : Nat) (l : List α) (a x : α)
    (hl : l = List.replicate n a) (m : Nat)
    (hx : x ∈ (List.replicate m l).flatten) : x = a := by
  rw [List.mem_flatten] at hx
  obtain ⟨l2, hl2, hxl⟩ := hx
  rw [List.mem_replicate] at hl2
  rw [hl2.2, hl, List.mem_replicate] at hxl
  exact hxl.2

/-! ## Claim C1: retention-buffer capacity and FIFO eviction -/

theorem allocateMemoryBurst_length_le (h : List Nat) (b : Nat)
    (hh : h.length ≤ maxRetained) :
    (allocateMemoryBurst h b).length ≤ maxRetained := by
  rw [allocateMemoryBurst]
  split <;> simp only [List.length_append, List.length_drop, List.length_cons,
    List.length_nil] <;> simp [maxRetained] at * <;> omega

/-- **C1**: starting from the empty buffer, the retention buffer's length
never exceeds the capacity `maxRetained = 20`; after 21 successive calls
of the memory-retention handler it has length exactly 20 and no longer
contains block 0 (the first-appended block); after 25 calls it holds
exactly the 20 blocks 5,…,24 (the oldest 5 evicted), 20 batches of
`chunkSize*chunkCount` bytes ≈ 1000 MB nominal; and whenever the buffer
is at (or beyond) capacity, a call drops the oldest block before
appending the new one (FIFO). -/
theorem retention_buffer_capacity_and_fifo :
    (∀ n, (allocSeq n).length ≤ maxRetained) ∧
    ((allocSeq 21).length = 20 ∧ (0 : Nat) ∉ allocSeq 21) ∧
    allocSeq 25 = List.range' 5 20 ∧
    (allocSeq 25).length * (chunkSize * chunkCount) = 1048576000 ∧
    (∀ h b, maxRetained ≤ h.length →
      allocateMemoryBurst h b = h.drop 1 ++ [b]) := by
  refine ⟨?_, ⟨by decide, by decide⟩, by decide, by decide, ?_⟩
  · intro n
    induction n with
    | zero => simp [allocSeq]
    | succ n ih => exact allocateMemoryBurst_length_le _ _ ih
  · intro h b hh
    rw [allocateMemoryBurst, if_pos hh]

theorem retention_buffer_capacity_and_fifo_witness :
    maxRetained ≤ (List.range 20).length ∧
    allocateMemoryBurst (List.range 20) 20 = (List.range 20).drop 1 ++ [20] :=
  ⟨by decide,
   retention_buffer_capacity_and_fifo.2.2.2.2 (List.range 20) 20 (by decide)⟩

/-! ## Claim C3: `checkEmail` is pure and returns the fixed match result -/

theorem checkEmailLoop_eq (n : Nat) (m : Bool) :
    checkEmailLoop n m = (m || (decide (0 < n) && emailMatchResult)) := by
  induction n generalizing m with
  | zero => simp [checkEmailLoop]
  | succ n ih =>
      rw [checkEmailLoop, ih]
      cases emailMatchResult <;> cases m <;> simp

set_option maxRecDepth 100000 in
/-- **C3**: `checkEmail` is a pure, deterministic function of the fixed
pattern and fixed sample string: its (unique) return value is exactly
the result of matching `emailRegexp` against `slowEmailSample`, and that
value is `false` (the adversarial sample contains `¿` and `?`, which no
class of the anchored pattern accepts).  Purity and run-to-run
determinism are inherent in the embedding: `checkEmail` is a closed
value, so every invocation denotes the same boolean. -/
theorem checkEmail_matches_fixed_regex :
    checkEmail = emailRegexp.matchString slowEmailSample ∧ checkEmail = false := by
  have h : checkEmail = emailMatchResult := by
    rw [checkEmail, checkEmailLoop_eq]
    simp [checkEmailIters]
  exact ⟨h, by rw [h]; decide⟩

/-! ## Claim C4: per-request regex iteration count of the `/slow` route -/

theorem slowHandlerEvents_matchCall_count :
    slowHandlerEvents.countP isMatchCall = slowLoopCount * checkEmailIters := by
  simp [slowHandlerEvents, List.countP_cons, List.countP_append,
    countP_flatten_replicate, checkEmailEvents, countP_replicate_eq,
    isMatchCall]

/-- **C4 counterexample**: one request to `/slow` runs the regex match
250000 times (`slowHandler` calls `checkEmail` 50 times and each call
performs 5000 matches), not 5000 times. -/
theorem slow_request_match_count_ne_5000 :
    slowHandlerEvents.countP isMatchCall = 250000 ∧
    slowHandlerEvents.countP isMatchCall ≠ 5000 := by
  have h := slowHandlerEvents_matchCall_count
  rw [slowLoopCount, checkEmailIters] at h
  exact ⟨by omega, by omega⟩

/-- **C4 (amended)**: for every request to the CPU-bound route the handler
runs the fixed-pattern match against the fixed adversarial input
`slowLoopCount * checkEmailIters = 50 * 5000 = 250000` times; both counts
are hard-coded constants and the handler ignores the request entirely, so
the iteration count is not parameterized per request. -/
theorem slow_match_counts_hardcoded :
    slowHandlerEvents.countP isMatchCall = slowLoopCount * checkEmailIters ∧
    slowLoopCount * checkEmailIters = 250000 ∧
    checkEmailIters = 5000 ∧
    (∀ r1 r2 : HttpRequest, slowHandler r1 = slowHandler r2) :=
  ⟨slowHandlerEvents_matchCall_count, by decide, rfl, fun _ _ => rfl⟩

/-! ## Claim C8: `/slow` response body and the `slow_business_logic` span -/

theorem slowHandlerEvents_decomp :
    slowHandlerEvents =
      (Ev.spanStart "slow_business_logic"
          :: (List.replicate slowLoopCount checkEmailEvents).flatten)
        ++ [Ev.write "Slow endpoint finished", Ev.spanEnd "slow_business_logic"] := by
  simp [slowHandlerEvents]

theorem slow_prefix_all_matchCall (x : Ev)
    (hx : x ∈ (Ev.spanStart "slow_business_logic"
      :: (List.replicate slowLoopCount checkEmailEvents).flatten)) :
    x = Ev.spanStart "slow_business_logic" ∨ x = Ev.matchCall := by
  rcases List.mem_cons.mp hx with h | h
  · exact Or.inl h
  · exact Or.inr
      (mem_flatten_replicate_eq checkEmailIters checkEmailEvents Ev.matchCall x rfl
        slowLoopCount h)

/-- **C8 counterexample**: in the event trace of one `/slow` request the
unique response write happens strictly before the unique close of the
`slow_business_logic` span — `defer span.End()` runs at handler return,
after `w.Write` — so the span is not closed before the response is
written. -/
theorem slow_span_end_after_write :
    slowHandlerEvents.countP isWriteEv = 1 ∧
    slowHandlerEvents.countP isSpanEndEv = 1 ∧
    slowHandlerEvents.findIdx isWriteEv < slowHandlerEvents.findIdx isSpanEndEv := by
  refine ⟨?_, ?_, ?_⟩
  · simp [slowHandlerEvents, List.countP_cons, List.countP_append,
      countP_flatten_replicate, checkEmailEvents, countP_replicate_eq,
      isWriteEv]
  · simp [slowHandlerEvents, List.countP_cons, List.countP_append,
      countP_flatten_replicate, checkEmailEvents, countP_replicate_eq,
      isSpanEndEv]
  · have hw : slowHandlerEvents.findIdx isWriteEv =
        (Ev.spanStart "slow_business_logic"
          :: (List.replicate slowLoopCount checkEmailEvents).flatten).length + 0 := by
      have h2 : List.findIdx isWriteEv
          [Ev.write "Slow endpoint finished", Ev.spanEnd "slow_business_logic"] = 0 := rfl
      rw [slowHandlerEvents_decomp, findIdx_append_all_false isWriteEv _ _ ?sw, h2]
      case sw =>
        intro x hx
        rcases slow_prefix_all_matchCall x hx with h | h <;> rw [h] <;> rfl
    have he : slowHandlerEvents.findIdx isSpanEndEv =
        (Ev.spanStart "slow_business_logic"
          :: (List.replicate slowLoopCount checkEmailEvents).flatten).length + 1 := by
      have h2 : List.findIdx isSpanEndEv
          [Ev.write "Slow endpoint finished", Ev.spanEnd "slow_business_logic"] = 1 := rfl
      rw [slowHandlerEvents_decomp, findIdx_append_all_false isSpanEndEv _ _ ?se, h2]
      case se =>
        intro x hx
        rcases slow_prefix_all_matchCall x hx with h | h <;> rw [h] <;> rfl
    omega

/-- **C8 (amended)**: a single `/slow` request responds `200` with body
exactly `"Slow endpoint finished"`, and exactly one child scope named
`slow_business_logic` is opened on entry (it is the first event) and
closed when the handler returns (it is the last event, after the
response write), so its extent covers the whole 250000-match workload. -/
theorem slow_scope_and_body :
    (∀ r, (slowHandler r).1 = { status := 200, body := "Slow endpoint finished" }) ∧
    slowHandlerEvents.head? = some (Ev.spanStart "slow_business_logic") ∧
    slowHandlerEvents.getLast? = some (Ev.spanEnd "slow_business_logic") ∧
    slowHandlerEvents.countP isSpanStartEv = 1 ∧
    slowHandlerEvents.countP isSpanEndEv = 1 ∧
    slowHandlerEvents.countP isMatchCall = slowLoopCount * checkEmailIters := by
  refine ⟨fun _ => rfl, by simp [slowHandlerEvents], ?_, ?_, ?_,
    slowHandlerEvents_matchCall_count⟩
  · have h : slowHandlerEvents =
        ((Ev.spanStart "slow_business_logic"
            :: (List.replicate slowLoopCount checkEmailEvents).flatten)
          ++ [Ev.write "Slow endpoint finished"]) ++ [Ev.spanEnd "slow_business_logic"] := by
      rw [slowHandlerEvents_decomp]
      simp
    rw [h, List.getLast?_concat]
  · simp [slowHandlerEvents, List.countP_cons, List.countP_append,
      countP_flatten_replicate, checkEmailEvents, countP_replicate_eq,
      isSpanStartEv]
  · simp [slowHandlerEvents, List.countP_cons, List.countP_append,
      countP_flatten_replicate, checkEmailEvents, countP_replicate_eq,
      isSpanEndEv]

/-! ## Claims C7 / C10: the baseline `/hello` handler -/

/-- **C7**: for every request to `/hello` the handler sleeps a bounded
random duration in `[0, 50)` ms, responds `500` exactly when the failure
draw is below the 5% threshold (with empty body, never retried — the
handler is a single straight-line evaluation), and otherwise responds
`200` with body exactly `"Hello World"`.  On the uniform `2^24`-point
grid of draw values in `[0,1)`, exactly `838861` of the `16777216` draws
fail, i.e. the failure probability is `838861/2^24 ≈ 5.000007%`. -/
theorem helloHandler_random_failure_contract :
    (∀ (sd : Nat) (fd : ℚ), (helloHandler sd fd).1 < 50) ∧
    (∀ (sd : Nat) (fd : ℚ),
      ((helloHandler sd fd).2 = { status := 500, body := "" } ∧ fd < 5 / 100) ∨
      ((helloHandler sd fd).2 = { status := 200, body := "Hello World" } ∧
        ¬ fd < 5 / 100)) ∧
    (∀ (sd : Nat) (fd : ℚ), (helloHandler sd fd).2.status = 500 ↔ fd < 5 / 100) ∧
    (Finset.range (2 ^ 24)).filter (fun k : Nat => (k : ℚ) / 2 ^ 24 < 5 / 100) =
      Finset.range 838861 := by
  have key : ∀ k : Nat, ((k : ℚ) / 2 ^ 24 < 5 / 100) ↔ k < 838861 := by
    intro k
    rw [div_lt_iff₀ (by norm_num)]
    constructor
    · intro h
      have h2 : (k : ℚ) < 4194304 / 5 := by linarith
      rw [lt_div_iff₀ (by norm_num)] at h2
      have h3 : (k : ℚ) * 5 = ((k * 5 : Nat) : ℚ) := by push_cast; ring
      rw [h3] at h2
      have h4 : k * 5 < 4194304 := by exact_mod_cast h2
      omega
    · intro h
      have h2 : (k : ℚ) ≤ 838860 := by exact_mod_cast Nat.lt_succ_iff.mp h
      linarith
  refine ⟨?_, ?_, ?_, ?_⟩
  · intro sd fd
    have : sd % 50 < 50 := Nat.mod_lt _ (by omega)
    by_cases h : fd < 5 / 100 <;> simp [helloHandler, h, this]
  · intro sd fd
    by_cases h : fd < 5 / 100
    · exact Or.inl ⟨by simp [helloHandler, h], h⟩
    · exact Or.inr ⟨by simp [helloHandler, h], h⟩
  · intro sd fd
    by_cases h : fd < 5 / 100 <;> simp [helloHandler, h]
  · ext k
    simp only [Finset.mem_filter, Finset.mem_range]
    constructor
    · rintro ⟨-, hk⟩
      exact (key k).mp hk
    · intro hk
      exact ⟨by omega, (key k).mpr hk⟩

/-- **C10**: whenever the injected random failure fires on the baseline
route, the handler writes status `500` and returns immediately: the body
is empty, and in particular `"Hello World"` does not occur in it. -/
theorem helloHandler_500_empty_body (sd : Nat) (fd : ℚ) (h : fd < 5 / 100) :
    (helloHandler sd fd).2.status = 500 ∧ (helloHandler sd fd).2.body = "" ∧
    ¬ ("Hello World".data <:+: (helloHandler sd fd).2.body.data) := by
  refine ⟨by simp [helloHandler, h], by simp [helloHandler, h], ?_⟩
  intro hinf
  rw [show (helloHandler sd fd).2.body = "" by simp [helloHandler, h]] at hinf
  have := List.infix_nil.mp hinf
  simp at this

theorem helloHandler_500_empty_body_witness :
    ((0 : ℚ) < 5 / 100) ∧ (helloHandler 0 0).2.status = 500 :=
  ⟨by norm_num, (helloHandler_500_empty_body 0 0 (by norm_num)).1⟩

/-! ## Claim C5: traffic-generator log bodies -/

theorem str_data_append (s t : String) : (s ++ t).data = s.data ++ t.data := rfl

theorem okBody_data (d : Int) (t s : String) :
    (okLogBody routeSlow d t s).data =
      "[OK] route=/slow method=GET status=200 duration_ms=".data
        ++ (toString d).data ++ " trace_id=".data ++ t.data
        ++ " span_id=".data ++ s.data := by
  simp [okLogBody, routeSlow, str_data_append, List.append_assoc]

theorem errBody_data (e t s : String) :
    (errLogBody routeSlow e t s).data =
      "[ERROR] route=/slow method=GET err=".data
        ++ e.data ++ " trace_id=".data ++ t.data
        ++ " span_id=".data ++ s.data := by
  simp [errLogBody, routeSlow, str_data_append, List.append_assoc]

theorem okBody_contains_route (d : Int) (t s : String) :
    "route=/slow".data <:+: (okLogBody routeSlow d t s).data := by
  have hb : "[OK] route=/slow method=GET status=200 duration_ms=".data
      = "[OK] ".data ++ "route=/slow".data
          ++ " method=GET status=200 duration_ms=".data := by decide
  refine ⟨"[OK] ".data,
    " method=GET status=200 duration_ms=".data ++ (toString d).data
      ++ " trace_id=".data ++ t.data ++ " span_id=".data ++ s.data, ?_⟩
  rw [okBody_data, hb]
  simp [List.append_assoc]

theorem okBody_contains_status (d : Int) (t s : String) :
    "status=200".data <:+: (okLogBody routeSlow d t s).data := by
  have hb : "[OK] route=/slow method=GET status=200 duration_ms=".data
      = "[OK] route=/slow method=GET ".data ++ "status=200".data
          ++ " duration_ms=".data := by decide
  refine ⟨"[OK] route=/slow method=GET ".data,
    " duration_ms=".data ++ (toString d).data
      ++ " trace_id=".data ++ t.data ++ " span_id=".data ++ s.data, ?_⟩
  rw [okBody_data, hb]
  simp [List.append_assoc]

theorem okBody_contains_traceID (d : Int) (t s : String) :
    t.data <:+: (okLogBody routeSlow d t s).data := by
  refine ⟨"[OK] route=/slow method=GET status=200 duration_ms=".data
      ++ (toString d).data ++ " trace_id=".data,
    " span_id=".data ++ s.data, ?_⟩
  rw [okBody_data]
  simp [List.append_assoc]

theorem logRecordsOf_iteration_ok (t s : String) (d : Int) (sl : Nat) :
    logRecordsOf (generatorIteration t s (.ok d) sl) =
      [{ severity := .info, severityText := "INFO",
         body := okLogBody routeSlow d t s, attrs := okAttrs d t s }] := by
  rw [generatorIteration, logRecordsOf]
  simp [List.filterMap_append, List.filterMap_cons, checkEmailEvents,
    filterMap_replicate_none logRecordOf checkEmailIters Ev.matchCall rfl,
    logRecordOf]

theorem logRecordsOf_iteration_fail (t s e : String) (sl : Nat) :
    logRecordsOf (generatorIteration t s (.fail e) sl) =
      [{ severity := .error, severityText := "ERROR",
         body := errLogBody routeSlow e t s, attrs := errAttrs e t s }] := by
  rw [generatorIteration, logRecordsOf]
  simp [List.filterMap_append, List.filterMap_cons, checkEmailEvents,
    filterMap_replicate_none logRecordOf checkEmailIters Ev.matchCall rfl,
    logRecordOf]

/-- **C5**: each traffic-generator iteration emits exactly one log record;
its body is built by exactly the spec's verbatim format (`[OK] …` on
success with the `INFO` severity, `[ERROR] …` on failure with the `ERROR`
severity), and every successful-call body contains the exact substrings
`route=/slow`, `status=200`, and the active trace identifier. -/
theorem generator_log_bodies_verbatim :
    (∀ (t s : String) (d : Int) (sl : Nat),
        logBodiesOf (generatorIteration t s (.ok d) sl) =
          [okLogBody routeSlow d t s]) ∧
    (∀ (t s e : String) (sl : Nat),
        logBodiesOf (generatorIteration t s (.fail e) sl) =
          [errLogBody routeSlow e t s]) ∧
    (∀ (route : String) (d : Int) (t s : String),
        okLogBody route d t s = specOkLogBody route d t s) ∧
    (∀ route e t s : String,
        errLogBody route e t s = specErrLogBody route e t s) ∧
    (∀ (d : Int) (t s : String),
        "route=/slow".data <:+: (okLogBody routeSlow d t s).data ∧
        "status=200".data <:+: (okLogBody routeSlow d t s).data ∧
        t.data <:+: (okLogBody routeSlow d t s).data) := by
  refine ⟨?_, ?_, fun _ _ _ _ => rfl, fun _ _ _ _ => rfl, ?_⟩
  · intro t s d sl
    rw [logBodiesOf, logRecordsOf_iteration_ok]
    rfl
  · intro t s e sl
    rw [logBodiesOf, logRecordsOf_iteration_fail]
    rfl
  · intro d t s
    exact ⟨okBody_contains_route d t s, okBody_contains_status d t s,
      okBody_contains_traceID d t s⟩

/-! ## Claim C6: the generator loop survives transport failures -/

theorem errBody_contains_route (e t s : String) :
    "route=/slow".data <:+: (errLogBody routeSlow e t s).data := by
  have hb : "[ERROR] route=/slow method=GET err=".data
      = "[ERROR] ".data ++ "route=/slow".data ++ " method=GET err=".data := by decide
  refine ⟨"[ERROR] ".data,
    " method=GET err=".data ++ e.data ++ " trace_id=".data ++ t.data
      ++ " span_id=".data ++ s.data, ?_⟩
  rw [errBody_data, hb]
  simp [List.append_assoc]

theorem errBody_contains_err (e t s : String) :
    e.data <:+: (errLogBody routeSlow e t s).data := by
  refine ⟨"[ERROR] route=/slow method=GET err=".data,
    " trace_id=".data ++ t.data ++ " span_id=".data ++ s.data, ?_⟩
  rw [errBody_data]
  simp [List.append_assoc]

theorem errBody_contains_traceID (e t s : String) :
    t.data <:+: (errLogBody routeSlow e t s).data := by
  refine ⟨"[ERROR] route=/slow method=GET err=".data ++ e.data
      ++ " trace_id=".data, " span_id=".data ++ s.data, ?_⟩
  rw [errBody_data]
  simp [List.append_assoc]

theorem errBody_contains_spanID (e t s : String) :
    s.data <:+: (errLogBody routeSlow e t s).data := by
  refine ⟨"[ERROR] route=/slow method=GET err=".data ++ e.data
      ++ " trace_id=".data ++ t.data ++ " span_id=".data, [], ?_⟩
  rw [errBody_data]
  simp [List.append_assoc]

/-- **C6**: the traffic-generator loop never terminates on a failed
downstream call.  The trace of any run decomposes around a failing
iteration into the preceding iterations, the failing iteration's full
trace, and the following iterations — so the loop proceeds past the
failure.  Within the failing iteration the generator emits exactly one
log record, of error severity, whose body embeds the route, the error
text and the correlation identifiers; records the error on the scope;
and closes the scope. -/
theorem generator_survives_transport_failure :
    (∀ (pre post : List IterInput) (i : IterInput),
        generatorRun (pre ++ i :: post) =
          generatorRun pre
            ++ generatorIteration i.traceID i.spanID i.outcome i.sleepDraw
            ++ generatorRun post) ∧
    (∀ (t s e : String) (sl : Nat),
        logRecordsOf (generatorIteration t s (.fail e) sl) =
          [{ severity := .error, severityText := "ERROR",
             body := errLogBody routeSlow e t s, attrs := errAttrs e t s }]) ∧
    (∀ (t s e : String) (sl : Nat),
        (generatorIteration t s (.fail e) sl).countP isRecordError = 1) ∧
    (∀ (t s e : String) (sl : Nat),
        (generatorIteration t s (.fail e) sl).countP isSpanEndEv = 1) ∧
    (∀ e t s : String,
        "route=/slow".data <:+: (errLogBody routeSlow e t s).data ∧
        e.data <:+: (errLogBody routeSlow e t s).data ∧
        t.data <:+: (errLogBody routeSlow e t s).data ∧
        s.data <:+: (errLogBody routeSlow e t s).data) := by
  refine ⟨?_, logRecordsOf_iteration_fail, ?_, ?_, ?_⟩
  · intro pre post i
    simp [generatorRun, List.map_append, List.flatten_append]
  · intro t s e sl
    simp [generatorIteration, List.countP_cons, List.countP_append,
      checkEmailEvents, countP_replicate_eq, isRecordError]
  · intro t s e sl
    simp [generatorIteration, List.countP_cons, List.countP_append,
      checkEmailEvents, countP_replicate_eq, isSpanEndEv]
  · intro e t s
    exact ⟨errBody_contains_route e t s, errBody_contains_err e t s,
      errBody_contains_traceID e t s, errBody_contains_spanID e t s⟩

/-! ## Claim C9: metric emission per generator iteration -/

/-- **C9 counterexample**: a failed (but completed: its span is closed)
generator iteration emits no counter increment and no duration
observation — metrics are emitted only on the success branch, so "one of
each per completed generator iteration" is false. -/
theorem failed_iteration_emits_no_metrics :
    countCounterAdds (generatorIteration "0af7651916cd43dd8448eb211c80319c"
        "b7ad6b7169203331" (.fail "connection refused") 7) = 0 ∧
    countHistRecords (generatorIteration "0af7651916cd43dd8448eb211c80319c"
        "b7ad6b7169203331" (.fail "connection refused") 7) = 0 ∧
    (generatorIteration "0af7651916cd43dd8448eb211c80319c"
        "b7ad6b7169203331" (.fail "connection refused") 7).countP isSpanEndEv = 1 := by
  refine ⟨?_, ?_, ?_⟩ <;>
    simp [generatorIteration, countCounterAdds, countHistRecords,
      List.countP_cons, List.countP_append, checkEmailEvents,
      countP_replicate_eq, isCounterAdd, isHistRecord, isSpanEndEv]

/-- **C9 (amended)**: exactly one counter increment (tagged by
route/method/status) and exactly one duration observation (tagged by
route) are emitted per *successful* generator iteration; a failed
iteration emits neither. -/
theorem metrics_once_per_success :
    (∀ (t s : String) (d : Int) (sl : Nat),
        countCounterAdds (generatorIteration t s (.ok d) sl) = 1 ∧
        countHistRecords (generatorIteration t s (.ok d) sl) = 1) ∧
    (∀ (t s e : String) (sl : Nat),
        countCounterAdds (generatorIteration t s (.fail e) sl) = 0 ∧
        countHistRecords (generatorIteration t s (.fail e) sl) = 0) := by
  constructor
  · intro t s d sl
    constructor <;>
      simp [generatorIteration, countCounterAdds, countHistRecords,
        List.countP_cons, List.countP_append, checkEmailEvents,
        countP_replicate_eq, isCounterAdd, isHistRecord]
  · intro t s e sl
    constructor <;>
      simp [generatorIteration, countCounterAdds, countHistRecords,
        List.countP_cons, List.countP_append, checkEmailEvents,
        countP_replicate_eq, isCounterAdd, isHistRecord]
